import Mathlib

/-!
Verification of the authentication service of `angular-boilerplates`
(`src/auth.service.ts`), a client-side token-refresh gateway.

The embedding is a shallow one.  Cookies (`ngx-cookie-service`) become a
five-field record of optional entries; each HTTP call's outcome is drawn
from an environment record; a verb method (`GetRequest`, `PostRequest`,
`PutRequest`, `DeleteRequest`) becomes a pure function from the
environment and the initial cookie store to the final store together with
a trace of observable events (HTTP requests issued with their
`Authorization` header, handler invocations, navigations, the full-page
reload).

Two semantic points of the source are embedded deliberately:

* `RefreshToken()`'s `catchError` handler returns `of(null)`, so the
  observable returned by `RefreshToken()` NEVER errors: it always emits
  exactly one value and completes.  Consequently, in every verb method the
  `switchMap` retry fires even when the refresh HTTP call failed, and the
  inner `catchError` of the verb method (whose parameter is named
  `refreshError` in the source) in fact only ever receives errors of the
  RETRIED request.

* `PostDownload` builds its observable pipeline with `.pipe(...)` but,
  unlike every other method of the class, never calls `.subscribe()`.
  A cold RxJS observable performs no work until subscribed, so the method
  has no effect at all; `postDownloadPipelineEffects` records what a
  subscription would have performed.
-/

/-- An HTTP error body, as attached to an Angular `HttpErrorResponse` in the
field `error.error`.  The source reads its `message` field on the non-401
path; `extra` stands for whatever further data the server included. -/
structure ErrBody where
  message : String
  extra : String
deriving DecidableEq, Repr

/-- Outcome of one HTTP attempt: either a success with the server's actual
status and a response body, or an error carrying a status and a body. -/
inductive HttpResult
| success (status : Nat) (body : String)
| failure (status : Nat) (error : ErrBody)
deriving DecidableEq, Repr

/-- The credential pair returned by `/auth/refresh-token`
(`OAuthResponse` in the source). -/
structure OAuthResponse where
  access_token : String
  refresh_token : String
deriving DecidableEq, Repr

/-- Outcome of the refresh HTTP call.  On failure the server's error body is
present in the transport but the source's `catchError` in `RefreshToken`
never reads it. -/
inductive RefreshResult
| success (resp : OAuthResponse)
| failure (status : Nat) (error : ErrBody)
deriving DecidableEq, Repr

/-- The five cookie keys the service uses. -/
inductive CookieKey
| is_loggedin
| logged_user
| role
| access_token
| refresh_token
deriving DecidableEq, Repr

/-- One stored cookie: its value and the expiry day set when it was written. -/
structure Cookie where
  value : String
  expiry : Nat
deriving DecidableEq, Repr

/-- The cookie store: one optional entry per key used by the service
(`ngx-cookie-service`, path "/"). -/
structure Store where
  is_loggedin : Option Cookie
  logged_user : Option Cookie
  role : Option Cookie
  access_token : Option Cookie
  refresh_token : Option Cookie
deriving DecidableEq, Repr

/-- `cookieService.get(key)`: returns the stored value, or the empty string
when the cookie is absent (the `ngx-cookie-service` sentinel). -/
def getCookie (s : Store) : CookieKey → String
| CookieKey.is_loggedin => (s.is_loggedin.map Cookie.value).getD ""
| CookieKey.logged_user => (s.logged_user.map Cookie.value).getD ""
| CookieKey.role => (s.role.map Cookie.value).getD ""
| CookieKey.access_token => (s.access_token.map Cookie.value).getD ""
| CookieKey.refresh_token => (s.refresh_token.map Cookie.value).getD ""

/-- `cookieService.set(key, value, expiry, '/')`: writes a field,
overwriting silently when present. -/
def setCookie (s : Store) (k : CookieKey) (v : String) (expiry : Nat) : Store :=
match k with
| CookieKey.is_loggedin => { s with is_loggedin := some ⟨v, expiry⟩ }
| CookieKey.logged_user => { s with logged_user := some ⟨v, expiry⟩ }
| CookieKey.role => { s with role := some ⟨v, expiry⟩ }
| CookieKey.access_token => { s with access_token := some ⟨v, expiry⟩ }
| CookieKey.refresh_token => { s with refresh_token := some ⟨v, expiry⟩ }

/-- `cookieService.delete(key, '/')`: removes a field; idempotent. -/
def deleteCookie (s : Store) (k : CookieKey) : Store :=
match k with
| CookieKey.is_loggedin => { s with is_loggedin := none }
| CookieKey.logged_user => { s with logged_user := none }
| CookieKey.role => { s with role := none }
| CookieKey.access_token => { s with access_token := none }
| CookieKey.refresh_token => { s with refresh_token := none }

/-- The HTTP verb of an outbound request. -/
inductive Verb
| get
| post
| put
| delete
deriving DecidableEq, Repr

/-- The value passed as second argument to a caller's `closure`.  The source
passes the raw response object on success, the whole error body on a retry
failure, but only `error.error.message` on a non-401 initial failure. -/
inductive Datum
| resp (body : String)
| errBody (e : ErrBody)
| msg (s : String)
deriving DecidableEq, Repr

/-- Observable events of one service call, in the order they occur. -/
inductive Event
| httpRequest (verb : Verb) (uri : String) (payload : Option String) (auth : Option String)
| refreshHttpRequest (username : String) (refreshTok : String)
| closureCall (status : Nat) (d : Datum)
| navigate (route : String)
| reload
| openUrl
| consoleLog
deriving DecidableEq, Repr

/-- `ReturnHttpHeaders()`: the `Authorization: Bearer <access_token>` header
built from the current cookie store. -/
def ReturnHttpHeaders (s : Store) : Option String :=
some ("Bearer " ++ getCookie s CookieKey.access_token)

/-- `logoutUser()`: deletes the five cookies, then forces
`window.location.reload()`. -/
def logoutUser (s : Store) : Store × List Event :=
let s1 := deleteCookie s CookieKey.is_loggedin
let s2 := deleteCookie s1 CookieKey.logged_user
let s3 := deleteCookie s2 CookieKey.role
let s4 := deleteCookie s3 CookieKey.access_token
let s5 := deleteCookie s4 CookieKey.refresh_token
(s5, [Event.reload])

/-- `RefreshToken()`: posts `{Username, RefreshToken}` read from the cookie
store to `/auth/refresh-token`.  On success, `map` writes the new
`access_token` and then the new `refresh_token`, each with expiry
`now + 30` days (the `cookieExpiry` date), in the same synchronous
callback.  On failure, `catchError` logs the user out and navigates to
`/401` when the status is 401, otherwise navigates to `/400`; in both
failure branches it returns `of(null)`, so the observable delivered to the
caller still emits one value and completes — it never errors. -/
def RefreshToken (r : RefreshResult) (now : Nat) (s : Store) : Store × List Event :=
let reqEvent := Event.refreshHttpRequest (getCookie s CookieKey.logged_user)
  (getCookie s CookieKey.refresh_token)
match r with
| RefreshResult.success resp =>
  let s1 := setCookie s CookieKey.access_token resp.access_token (now + 30)
  let s2 := setCookie s1 CookieKey.refresh_token resp.refresh_token (now + 30)
  (s2, [reqEvent])
| RefreshResult.failure st _err =>
  if st == 401 then
    let out := logoutUser s
    (out.1, reqEvent :: out.2 ++ [Event.navigate "/401"])
  else
    (s, [reqEvent, Event.navigate "/400"])

/-- Environment of one verb-method call: the outcome the transport would give
the initial request, the refresh HTTP call, and the retried request. -/
structure Env where
  first : HttpResult
  refresh : RefreshResult
  retry : HttpResult
deriving DecidableEq, Repr

/-- The pipeline shared verbatim by `GetRequest`, `PostRequest`,
`PutRequest` and `DeleteRequest` (only the HTTP verb and the presence of a
payload differ).  Initial request with `ReturnHttpHeaders()`; on success
`map` calls `closure(200, response)`.  On error: if `error.status == 401`,
`RefreshToken()` runs and — since it never errors (see above) — the
`switchMap` reissues the request with headers recomputed from the
post-refresh store; the retry's success gives `closure(200, response)` and
its failure gives `closure(status, error)` via the inner `catchError`.
A non-401 initial error gives `closure(error.status, error.error.message)`. -/
def runVerb (v : Verb) (env : Env) (now : Nat) (s : Store) (uri : String)
  (payload : Option String) : Store × List Event :=
let initReq := Event.httpRequest v uri payload (ReturnHttpHeaders s)
match env.first with
| HttpResult.success _ body =>
  (s, [initReq, Event.closureCall 200 (Datum.resp body)])
| HttpResult.failure st err =>
  if st == 401 then
    let refreshed := RefreshToken env.refresh now s
    let retryReq := Event.httpRequest v uri payload (ReturnHttpHeaders refreshed.1)
    match env.retry with
    | HttpResult.success _ body =>
      (refreshed.1, initReq :: refreshed.2 ++ [retryReq, Event.closureCall 200 (Datum.resp body)])
    | HttpResult.failure st2 err2 =>
      (refreshed.1, initReq :: refreshed.2 ++ [retryReq, Event.closureCall st2 (Datum.errBody err2)])
  else
    (s, [initReq, Event.closureCall st (Datum.msg err.message)])

/-- `GetRequest(uri, closure)`. -/
def GetRequest (env : Env) (now : Nat) (s : Store) (uri : String) : Store × List Event :=
runVerb Verb.get env now s uri none

/-- `PostRequest(uri, payload, closure)`. -/
def PostRequest (env : Env) (now : Nat) (s : Store) (uri : String) (payload : String) :
  Store × List Event :=
runVerb Verb.post env now s uri (some payload)

/-- `PutRequest(uri, payload, closure)`. -/
def PutRequest (env : Env) (now : Nat) (s : Store) (uri : String) (payload : String) :
  Store × List Event :=
runVerb Verb.put env now s uri (some payload)

/-- `DeleteRequest(uri, closure)`. -/
def DeleteRequest (env : Env) (now : Nat) (s : Store) (uri : String) : Store × List Event :=
runVerb Verb.delete env now s uri none

/-- Outcome of the blob-returning POST used by `PostDownload`. -/
inductive BlobResult
| success (blob : String)
| failure (status : Nat)
deriving DecidableEq, Repr

/-- What a subscription to the pipeline built inside `PostDownload` would
perform: the unauthenticated blob POST; on success, wrap the response in a
`Blob`, create an object URL and `window.open` it; on failure,
`console.log` the error. -/
def postDownloadPipelineEffects (r : BlobResult) (uri : String) (payload : String) :
  List Event :=
Event.httpRequest Verb.post uri (some payload) none ::
  (match r with
   | BlobResult.success _ => [Event.openUrl]
   | BlobResult.failure _ => [Event.consoleLog])

/-- `PostDownload(uri, payload)`: the source builds the pipeline with
`.pipe(...)` but never calls `.subscribe()` on it, so the cold observable
is never executed and the method performs no observable effect. -/
def PostDownload (_r : BlobResult) (_uri : String) (_payload : String) : List Event :=
[]

/-- The handler invocations `(status, datum)` of a trace, in order. -/
def closureCalls (t : List Event) : List (Nat × Datum) :=
t.filterMap fun e =>
  match e with
  | Event.closureCall st d => some (st, d)
  | _ => none

/-- The verb HTTP requests of a trace: verb, uri, payload, Authorization. -/
def requestEvents (t : List Event) : List (Verb × String × Option String × Option String) :=
t.filterMap fun e =>
  match e with
  | Event.httpRequest v uri p a => some (v, uri, p, a)
  | _ => none

/-- How many refresh HTTP calls a trace contains. -/
def refreshCount (t : List Event) : Nat :=
t.countP fun e =>
  match e with
  | Event.refreshHttpRequest _ _ => true
  | _ => false

/-- The handler invocation a retry outcome produces, per the source's inner
`map`/`catchError` pair. -/
def retryOutcome : HttpResult → Nat × Datum
| HttpResult.success _ body => (200, Datum.resp body)
| HttpResult.failure st err => (st, Datum.errBody err)

/-- The store with nothing set. -/
def emptyStore : Store :=
⟨none, none, none, none, none⟩

/-- A sample authenticated store used by concrete witnesses. -/
def sampleStore : Store :=
⟨some ⟨"yes", 10⟩, some ⟨"alice", 10⟩, some ⟨"admin", 10⟩,
  some ⟨"A1", 10⟩, some ⟨"R1", 10⟩⟩

/-! ## Helper lemmas about the refresh routine's trace -/

theorem refreshToken_no_closure (r : RefreshResult) (now : Nat) (s : Store) :
    closureCalls (RefreshToken r now s).2 = [] := by
  cases r with
  | success resp => simp [RefreshToken, closureCalls]
  | failure st err =>
    by_cases h : st == 401 <;>
      simp [RefreshToken, logoutUser, closureCalls, h]

theorem refreshToken_one_refresh (r : RefreshResult) (now : Nat) (s : Store) :
    refreshCount (RefreshToken r now s).2 = 1 := by
  cases r with
  | success resp => simp [RefreshToken, refreshCount]
  | failure st err =>
    by_cases h : st == 401 <;>
      simp [RefreshToken, logoutUser, refreshCount, h]

theorem refreshToken_no_verb_request (r : RefreshResult) (now : Nat) (s : Store) :
    requestEvents (RefreshToken r now s).2 = [] := by
  cases r with
  | success resp => simp [RefreshToken, requestEvents]
  | failure st err =>
    by_cases h : st == 401 <;>
      simp [RefreshToken, logoutUser, requestEvents, h]

theorem refreshToken_success_token (resp : OAuthResponse) (now : Nat) (s : Store) :
    getCookie (RefreshToken (RefreshResult.success resp) now s).1 CookieKey.access_token
      = resp.access_token := by
  simp [RefreshToken, setCookie, getCookie]

/-! ## Claim theorems -/

/-- C1: for every verb operation, when the initial request fails with 401 and
the refresh succeeds, exactly two verb requests are issued — the original
and one retry carrying the fresh access token — the handler receives the
retry's outcome (success or failure), and exactly one refresh HTTP call is
made even when the retry itself fails with 401. -/
theorem c1_retry_once_with_new_token (v : Verb) (now : Nat) (s : Store) (uri : String)
    (payload : Option String) (err : ErrBody) (resp : OAuthResponse) (retryRes : HttpResult) :
    requestEvents (runVerb v ⟨HttpResult.failure 401 err, RefreshResult.success resp, retryRes⟩
        now s uri payload).2
      = [(v, uri, payload, some ("Bearer " ++ getCookie s CookieKey.access_token)),
         (v, uri, payload, some ("Bearer " ++ resp.access_token))] ∧
    closureCalls (runVerb v ⟨HttpResult.failure 401 err, RefreshResult.success resp, retryRes⟩
        now s uri payload).2
      = [retryOutcome retryRes] ∧
    refreshCount (runVerb v ⟨HttpResult.failure 401 err, RefreshResult.success resp, retryRes⟩
        now s uri payload).2 = 1 := by
  cases retryRes <;>
    simp [runVerb, RefreshToken, ReturnHttpHeaders, requestEvents, closureCalls,
      refreshCount, retryOutcome, getCookie, setCookie]

/-- C3: for every verb operation and every combination of outcomes of the
initial request, the refresh call and the retry, the caller's handler is
invoked exactly once. -/
theorem c3_handler_exactly_once (v : Verb) (env : Env) (now : Nat) (s : Store)
    (uri : String) (payload : Option String) :
    (closureCalls (runVerb v env now s uri payload).2).length = 1 := by
  rcases env with ⟨first, refresh, retry⟩
  cases first with
  | success st body => simp [runVerb, closureCalls]
  | failure st err =>
    by_cases h : st == 401
    · cases retry <;>
        cases refresh with
        | success resp =>
          simp [runVerb, RefreshToken, closureCalls, h]
        | failure rst rerr =>
          by_cases h2 : rst == 401 <;>
            simp [runVerb, RefreshToken, logoutUser, closureCalls, h, h2]
    · simp [runVerb, closureCalls, h]

/-- C4: when the refresh HTTP call succeeds, the new access token and new
refresh token are both stored with expiry 30 days from now, and the
refresh routine's whole trace contains no handler invocation, so no
handler can observe one token written and the other stale. -/
theorem c4_refresh_success_writes_both_tokens (resp : OAuthResponse) (now : Nat) (s : Store) :
    (RefreshToken (RefreshResult.success resp) now s).1.access_token
      = some ⟨resp.access_token, now + 30⟩ ∧
    (RefreshToken (RefreshResult.success resp) now s).1.refresh_token
      = some ⟨resp.refresh_token, now + 30⟩ ∧
    closureCalls (RefreshToken (RefreshResult.success resp) now s).2 = [] := by
  simp [RefreshToken, setCookie, closureCalls]

/-- C5: when the refresh HTTP call fails with 401, the routine clears all
five cookies (each key then reads as the empty sentinel) and signals the
must-re-authenticate outcome by navigating to the 401 page; the logout it
performs also forces the reload. -/
theorem c5_refresh_401_clears_session (err : ErrBody) (now : Nat) (s : Store) :
    (RefreshToken (RefreshResult.failure 401 err) now s).1 = emptyStore ∧
    (∀ k, getCookie (RefreshToken (RefreshResult.failure 401 err) now s).1 k = "") ∧
    Event.navigate "/401" ∈ (RefreshToken (RefreshResult.failure 401 err) now s).2 ∧
    Event.reload ∈ (RefreshToken (RefreshResult.failure 401 err) now s).2 := by
  refine ⟨?_, ?_, ?_, ?_⟩
  · simp [RefreshToken, logoutUser, deleteCookie, emptyStore]
  · intro k
    cases k <;> simp [RefreshToken, logoutUser, deleteCookie, getCookie]
  · simp [RefreshToken, logoutUser]
  · simp [RefreshToken, logoutUser]

/-- C6: when the refresh HTTP call fails with a status other than 401, the
routine leaves the cookie store completely unchanged and its trace is just
the refresh request followed by the navigation to the generic 400 page —
in particular no reload and no session write or delete. -/
theorem c6_refresh_other_failure_leaves_session (st : Nat) (err : ErrBody) (now : Nat)
    (s : Store) (h : st ≠ 401) :
    (RefreshToken (RefreshResult.failure st err) now s).1 = s ∧
    (RefreshToken (RefreshResult.failure st err) now s).2
      = [Event.refreshHttpRequest (getCookie s CookieKey.logged_user)
           (getCookie s CookieKey.refresh_token),
         Event.navigate "/400"] := by
  simp [RefreshToken, beq_iff_eq, h]

theorem c6_refresh_other_failure_witness :
    (RefreshToken (RefreshResult.failure 500 ⟨"oops", ""⟩) 0 sampleStore).1 = sampleStore ∧
    (RefreshToken (RefreshResult.failure 500 ⟨"oops", ""⟩) 0 sampleStore).2
      = [Event.refreshHttpRequest (getCookie sampleStore CookieKey.logged_user)
           (getCookie sampleStore CookieKey.refresh_token),
         Event.navigate "/400"] :=
  c6_refresh_other_failure_leaves_session 500 ⟨"oops", ""⟩ 0 sampleStore (by decide)

/-- C7: for every prior session state, logging out leaves none of the five
cookies set — each key reads as the empty sentinel — and then forces the
full client reload. -/
theorem c7_logout_clears_all_and_reloads (s : Store) :
    (logoutUser s).1 = emptyStore ∧
    (∀ k, getCookie (logoutUser s).1 k = "") ∧
    (logoutUser s).2 = [Event.reload] := by
  refine ⟨?_, ?_, rfl⟩
  · simp [logoutUser, deleteCookie, emptyStore]
  · intro k
    cases k <;> simp [logoutUser, deleteCookie, getCookie]

/-- C10: whichever verb is used, a successful underlying request — the
initial attempt with any server success status, or the post-refresh retry
with any server success status — reaches the handler as the constant
status 200 with the response body. -/
theorem c10_success_always_reported_200 (v : Verb) (now : Nat) (s : Store) (uri : String)
    (payload : Option String) (st st2 : Nat) (body body2 : String) (err : ErrBody)
    (r : RefreshResult) (retryRes : HttpResult) :
    closureCalls (runVerb v ⟨HttpResult.success st body, r, retryRes⟩ now s uri payload).2
      = [(200, Datum.resp body)] ∧
    closureCalls (runVerb v ⟨HttpResult.failure 401 err, r, HttpResult.success st2 body2⟩
        now s uri payload).2
      = [(200, Datum.resp body2)] := by
  constructor
  · simp [runVerb, closureCalls]
  · cases r with
    | success resp => simp [runVerb, RefreshToken, closureCalls]
    | failure rst rerr =>
      by_cases h2 : rst == 401 <;>
        simp [runVerb, RefreshToken, logoutUser, closureCalls, h2]

/-- C2 counterexample: initial GET fails 401, refresh fails with 500 and body
"refresh-msg"/"detail", and the retried request succeeds.  Contrary to the
claim, the call is not terminal at the refresh failure: the handler
receives the retry's success (200, "ok"), not the refresh error's status
and payload. -/
theorem c2_counterexample :
    closureCalls (GetRequest ⟨HttpResult.failure 401 ⟨"orig-msg", ""⟩,
        RefreshResult.failure 500 ⟨"refresh-msg", "detail"⟩,
        HttpResult.success 200 "ok"⟩ 0 sampleStore "/profile").2
      = [(200, Datum.resp "ok")] ∧
    closureCalls (GetRequest ⟨HttpResult.failure 401 ⟨"orig-msg", ""⟩,
        RefreshResult.failure 500 ⟨"refresh-msg", "detail"⟩,
        HttpResult.success 200 "ok"⟩ 0 sampleStore "/profile").2
      ≠ [(500, Datum.errBody ⟨"refresh-msg", "detail"⟩)] ∧
    closureCalls (GetRequest ⟨HttpResult.failure 401 ⟨"orig-msg", ""⟩,
        RefreshResult.failure 500 ⟨"refresh-msg", "detail"⟩,
        HttpResult.success 200 "ok"⟩ 0 sampleStore "/profile").2
      ≠ [(500, Datum.msg "refresh-msg")] := by
  refine ⟨rfl, ?_, ?_⟩ <;> decide

/-- C2 (amended): when the initial request fails with 401 and the refresh
HTTP call fails, the refresh error is swallowed (the refresh routine's
observable still emits), so the request is retried anyway with the
then-current token and the handler receives the retry's outcome, not the
refresh error; exactly one refresh call is made; and when the refresh
failure was a 401, the whole session is cleared before the retry goes out,
so the retry carries an empty bearer token and the final store is empty. -/
theorem c2_amended_refresh_failure_swallowed (v : Verb) (now : Nat) (s : Store)
    (uri : String) (payload : Option String) (origErr rerr : ErrBody) (rst : Nat)
    (retryRes : HttpResult) :
    closureCalls (runVerb v ⟨HttpResult.failure 401 origErr, RefreshResult.failure rst rerr,
        retryRes⟩ now s uri payload).2
      = [retryOutcome retryRes] ∧
    refreshCount (runVerb v ⟨HttpResult.failure 401 origErr, RefreshResult.failure rst rerr,
        retryRes⟩ now s uri payload).2 = 1 ∧
    (rst = 401 →
      (runVerb v ⟨HttpResult.failure 401 origErr, RefreshResult.failure rst rerr,
          retryRes⟩ now s uri payload).1 = emptyStore ∧
      requestEvents (runVerb v ⟨HttpResult.failure 401 origErr, RefreshResult.failure rst rerr,
          retryRes⟩ now s uri payload).2
        = [(v, uri, payload, some ("Bearer " ++ getCookie s CookieKey.access_token)),
           (v, uri, payload, some "Bearer ")] ∧
      Event.reload ∈ (runVerb v ⟨HttpResult.failure 401 origErr, RefreshResult.failure rst rerr,
          retryRes⟩ now s uri payload).2) := by
  refine ⟨?_, ?_, ?_⟩
  · cases retryRes <;>
      by_cases h2 : rst == 401 <;>
        simp [runVerb, RefreshToken, logoutUser, closureCalls, retryOutcome, h2]
  · cases retryRes <;>
      by_cases h2 : rst == 401 <;>
        simp [runVerb, RefreshToken, logoutUser, refreshCount, h2]
  · intro hrst
    subst hrst
    refine ⟨?_, ?_, ?_⟩ <;>
      cases retryRes <;>
        simp [runVerb, RefreshToken, ReturnHttpHeaders, logoutUser, deleteCookie,
          requestEvents, getCookie, emptyStore]

theorem c2_amended_witness :
    closureCalls (runVerb Verb.get ⟨HttpResult.failure 401 ⟨"m", ""⟩,
        RefreshResult.failure 401 ⟨"r", ""⟩, HttpResult.failure 401 ⟨"again", ""⟩⟩
        0 sampleStore "/profile" none).2
      = [retryOutcome (HttpResult.failure 401 ⟨"again", ""⟩)] ∧
    refreshCount (runVerb Verb.get ⟨HttpResult.failure 401 ⟨"m", ""⟩,
        RefreshResult.failure 401 ⟨"r", ""⟩, HttpResult.failure 401 ⟨"again", ""⟩⟩
        0 sampleStore "/profile" none).2 = 1 ∧
    ((401 : Nat) = 401 →
      (runVerb Verb.get ⟨HttpResult.failure 401 ⟨"m", ""⟩,
          RefreshResult.failure 401 ⟨"r", ""⟩, HttpResult.failure 401 ⟨"again", ""⟩⟩
          0 sampleStore "/profile" none).1 = emptyStore ∧
      requestEvents (runVerb Verb.get ⟨HttpResult.failure 401 ⟨"m", ""⟩,
          RefreshResult.failure 401 ⟨"r", ""⟩, HttpResult.failure 401 ⟨"again", ""⟩⟩
          0 sampleStore "/profile" none).2
        = [(Verb.get, "/profile", none,
             some ("Bearer " ++ getCookie sampleStore CookieKey.access_token)),
           (Verb.get, "/profile", none, some "Bearer ")] ∧
      Event.reload ∈ (runVerb Verb.get ⟨HttpResult.failure 401 ⟨"m", ""⟩,
          RefreshResult.failure 401 ⟨"r", ""⟩, HttpResult.failure 401 ⟨"again", ""⟩⟩
          0 sampleStore "/profile" none).2) :=
  c2_amended_refresh_failure_swallowed Verb.get 0 sampleStore "/profile" none
    ⟨"m", ""⟩ ⟨"r", ""⟩ 401 (HttpResult.failure 401 ⟨"again", ""⟩)

/-- C8 counterexample: a POST whose initial request fails with 500 and error
body message "boom", extra data "details".  The handler receives only the
message string, not the error payload verbatim. -/
theorem c8_counterexample :
    closureCalls (PostRequest ⟨HttpResult.failure 500 ⟨"boom", "details"⟩,
        RefreshResult.failure 0 ⟨"", ""⟩, HttpResult.success 200 "x"⟩
        0 sampleStore "/items" "p").2
      = [(500, Datum.msg "boom")] ∧
    closureCalls (PostRequest ⟨HttpResult.failure 500 ⟨"boom", "details"⟩,
        RefreshResult.failure 0 ⟨"", ""⟩, HttpResult.success 200 "x"⟩
        0 sampleStore "/items" "p").2
      ≠ [(500, Datum.errBody ⟨"boom", "details"⟩)] := by
  refine ⟨rfl, ?_⟩
  decide

/-- C8 (amended): for every verb operation, when the initial request fails
with a status other than 401, no refresh is attempted, no retry is issued,
the store is untouched, and the handler is invoked with that status and
only the message field of the error payload. -/
theorem c8_amended_non401_message_only (v : Verb) (now : Nat) (s : Store) (uri : String)
    (payload : Option String) (st : Nat) (err : ErrBody) (r : RefreshResult)
    (retryRes : HttpResult) (h : st ≠ 401) :
    refreshCount (runVerb v ⟨HttpResult.failure st err, r, retryRes⟩ now s uri payload).2
      = 0 ∧
    closureCalls (runVerb v ⟨HttpResult.failure st err, r, retryRes⟩ now s uri payload).2
      = [(st, Datum.msg err.message)] ∧
    (runVerb v ⟨HttpResult.failure st err, r, retryRes⟩ now s uri payload).1 = s ∧
    requestEvents (runVerb v ⟨HttpResult.failure st err, r, retryRes⟩ now s uri payload).2
      = [(v, uri, payload, ReturnHttpHeaders s)] := by
  refine ⟨?_, ?_, ?_, ?_⟩ <;>
    simp [runVerb, refreshCount, closureCalls, requestEvents, beq_iff_eq, h]

theorem c8_amended_witness :
    refreshCount (runVerb Verb.delete ⟨HttpResult.failure 404 ⟨"gone", "x"⟩,
        RefreshResult.failure 0 ⟨"", ""⟩, HttpResult.success 200 "y"⟩
        0 sampleStore "/items" none).2 = 0 ∧
    closureCalls (runVerb Verb.delete ⟨HttpResult.failure 404 ⟨"gone", "x"⟩,
        RefreshResult.failure 0 ⟨"", ""⟩, HttpResult.success 200 "y"⟩
        0 sampleStore "/items" none).2
      = [(404, Datum.msg "gone")] ∧
    (runVerb Verb.delete ⟨HttpResult.failure 404 ⟨"gone", "x"⟩,
        RefreshResult.failure 0 ⟨"", ""⟩, HttpResult.success 200 "y"⟩
        0 sampleStore "/items" none).1 = sampleStore ∧
    requestEvents (runVerb Verb.delete ⟨HttpResult.failure 404 ⟨"gone", "x"⟩,
        RefreshResult.failure 0 ⟨"", ""⟩, HttpResult.success 200 "y"⟩
        0 sampleStore "/items" none).2
      = [(Verb.delete, "/items", none, ReturnHttpHeaders sampleStore)] :=
  c8_amended_non401_message_only Verb.delete 0 sampleStore "/items" none 404
    ⟨"gone", "x"⟩ (RefreshResult.failure 0 ⟨"", ""⟩) (HttpResult.success 200 "y")
    (by decide)

/-- C9: the source builds the download pipeline but never subscribes to it,
so a call to PostDownload performs no observable effect at all — no HTTP
request, no opened resource, no log — even though subscribing to the
pipeline it builds would have issued the blob POST and opened or logged. -/
theorem c9_postdownload_never_subscribed (r : BlobResult) (uri payload : String) :
    PostDownload r uri payload = [] ∧
    postDownloadPipelineEffects r uri payload
      = Event.httpRequest Verb.post uri (some payload) none ::
          (match r with
           | BlobResult.success _ => [Event.openUrl]
           | BlobResult.failure _ => [Event.consoleLog]) := by
  exact ⟨rfl, rfl⟩
